import Mathlib

/-!
Shallow embedding of the Tauri backend commands in
`src/src-tauri/src/commands/documents.rs` and of the startup logic in
`src/src-tauri/src/lib.rs`.

Bytes are modelled as `Nat` (a `u8` is a `Nat` below 256 where it matters).
The filesystem is a partial map from path strings to byte lists, together
with a writability predicate and an OS-supplied error text per path; a
`fs::read`/`fs::write` failure surfaces the OS text wrapped in the command's
message prefix, exactly as the Rust `format!` calls do.  Stateful commands
are embedded in state-passing style: they return the new filesystem paired
with the `Result` value of the Rust function (`Except String`).
-/

namespace OfficeTools

/-- The host filesystem as seen by `std::fs`: `files p = some bs` means a
readable regular file with contents `bs` exists at `p`; `none` means reading
`p` fails (nonexistent, unreadable, or not a regular file).  `writable p`
tells whether `fs::write` to `p` succeeds; `osError p` is the OS error text
reported for a failed access to `p`. -/
structure FS where
  files : String → Option (List Nat)
  writable : String → Bool
  osError : String → String

/-- A successful `fs::write`: replace the contents at `p` by `b`. -/
def FS.setFile (fs : FS) (p : String) (b : List Nat) : FS :=
  FS.mk (fun q => if q = p then some b else fs.files q) fs.writable fs.osError

/-- `read_file_bytes`: `fs::read(&path).map_err(|e| format!("Failed to read file: {}", e))`. -/
def read_file_bytes (fs : FS) (path : String) : Except String (List Nat) :=
  match fs.files path with
  | some data => .ok data
  | none => .error ("Failed to read file: " ++ fs.osError path)

/-- `write_file_bytes`: `fs::write(&path, data).map_err(|e| format!("Failed to write file: {}", e))`.
Returns the resulting filesystem together with the command's `Result`. -/
def write_file_bytes (fs : FS) (path : String) (data : List Nat) :
    FS × Except String Unit :=
  if fs.writable path then (fs.setFile path data, .ok ())
  else (fs, .error ("Failed to write file: " ++ fs.osError path))

/-- JSON values, as far as the raw-write fallback needs them. -/
inductive JsonValue where
  | num (n : Int)
  | str (s : String)
  | bool (b : Bool)
  | null
  | arr (xs : List JsonValue)

/-- serde decode of one `u8` from a JSON value: a number in `[0, 255]`. -/
def decodeU8 : JsonValue → Except String Nat
  | .num n => if 0 ≤ n ∧ n ≤ 255 then .ok n.toNat
              else .error "invalid value: integer out of range for u8"
  | _ => .error "invalid type: expected u8"

/-- serde decode of a sequence of `u8`, left to right, first error wins. -/
def decodeU8List : List JsonValue → Except String (List Nat)
  | [] => .ok []
  | v :: vs =>
    match decodeU8 v with
    | .error e => .error e
    | .ok b =>
      match decodeU8List vs with
      | .error e => .error e
      | .ok bs => .ok (b :: bs)

/-- `serde_json::from_value::<Vec<u8>>`: succeeds only on an array of
numbers each in `[0, 255]`. -/
def decodeVecU8 : JsonValue → Except String (List Nat)
  | .arr xs => decodeU8List xs
  | _ => .error "invalid type: expected a sequence"

/-- The structured (JSON number-array) encoding of a byte payload, as the
front-end sends it to `write_file_bytes` / the fallback branch. -/
def encodeBytes (data : List Nat) : JsonValue :=
  .arr (data.map fun (b : Nat) => .num (b : Int))

/-- An HTTP header value: raw bytes. -/
structure HeaderValue where
  bytes : List Nat

/-- `HeaderValue::to_str`: succeeds only when every byte is visible ASCII
(32 ≤ b < 127), yielding the corresponding text. -/
def HeaderValue.to_str (v : HeaderValue) : Option String :=
  if v.bytes.all (fun b => decide (32 ≤ b) && decide (b < 127)) then
    some (String.mk (v.bytes.map Char.ofNat))
  else none

/-- The body of a `tauri::ipc::Request`: raw bytes or a JSON value. -/
inductive InvokeBody where
  | Raw (bytes : List Nat)
  | Json (value : JsonValue)

/-- A `tauri::ipc::Request`: a header map and a body. -/
structure Request where
  headers : String → Option HeaderValue
  body : InvokeBody

/-- The path-extraction chain of `write_file_bytes_raw`:
`request.headers().get("X-File-Path").and_then(|v| v.to_str().ok()).map(|s| s.to_string())`. -/
def headerPath (req : Request) : Option String :=
  (req.headers "X-File-Path").bind HeaderValue.to_str

/-- `write_file_bytes_raw`: extract the destination path from the
`X-File-Path` header (else fail), take the body raw or decode the JSON
fallback (else fail), then perform the same `fs::write` as
`write_file_bytes`. -/
def write_file_bytes_raw (fs : FS) (req : Request) : FS × Except String Unit :=
  match headerPath req with
  | none => (fs, .error "Missing X-File-Path header")
  | some path =>
    match req.body with
    | .Raw bytes =>
      if fs.writable path then (fs.setFile path bytes, .ok ())
      else (fs, .error ("Failed to write file: " ++ fs.osError path))
    | .Json value =>
      match decodeVecU8 value with
      | .error e => (fs, .error ("Failed to deserialize data: " ++ e))
      | .ok data =>
        if fs.writable path then (fs.setFile path data, .ok ())
        else (fs, .error ("Failed to write file: " ++ fs.osError path))

/-- Whether a command result is the raw write path's decode error. -/
def isDecodeErr : Except String Unit → Bool
  | .error e => e.startsWith "Failed to deserialize data:"
  | .ok _ => false

/-- The state a Tauri file-dialog builder accumulates before blocking:
its named filters (in insertion order) and the suggested file name. -/
structure FileDialogBuilder where
  filters : List (String × List String)
  fileName : Option String

def FileDialogBuilder.new : FileDialogBuilder := ⟨[], none⟩

def FileDialogBuilder.add_filter (b : FileDialogBuilder) (name : String)
    (exts : List String) : FileDialogBuilder :=
  ⟨b.filters ++ [(name, exts)], b.fileName⟩

def FileDialogBuilder.set_file_name (b : FileDialogBuilder) (name : String) :
    FileDialogBuilder :=
  ⟨b.filters, some name⟩

/-- The builder `open_file_dialog` hands to `blocking_pick_file`. -/
def openDialogConfig : FileDialogBuilder :=
  (FileDialogBuilder.new.add_filter "PDF Files" ["pdf"]).add_filter
    "All Files" ["*"]

/-- The builder `save_file_dialog` hands to `blocking_save_file`:
one "PDF Files" filter, plus the suggested name when given. -/
def saveDialogConfig (default_name : Option String) : FileDialogBuilder :=
  let b := FileDialogBuilder.new.add_filter "PDF Files" ["pdf"]
  match default_name with
  | some name => b.set_file_name name
  | none => b

/-- `open_file_dialog`: the user's response to the presented dialog is the
oracle `user` (`none` = cancellation); both outcomes map to `Ok`. -/
def open_file_dialog (user : FileDialogBuilder → Option String) :
    Except String (Option String) :=
  match user openDialogConfig with
  | some path => .ok (some path)
  | none => .ok none

/-- `save_file_dialog`: same shape as `open_file_dialog`, over the save
builder. -/
def save_file_dialog (user : FileDialogBuilder → Option String)
    (default_name : Option String) : Except String (Option String) :=
  match user (saveDialogConfig default_name) with
  | some path => .ok (some path)
  | none => .ok none

/-- `get_file_opened_with`: the process argument list, second element if
the list has more than one element. -/
def get_file_opened_with (args : List String) : Option String :=
  if h : 1 < args.length then some (args.get ⟨1, h⟩) else none

/-- serde_json escaping of one character inside a JSON string literal. -/
def escapeChar (c : Char) : String :=
  if c = '"' then "\\\""
  else if c = '\\' then "\\\\"
  else if c.toNat < 32 then
    match c.toNat with
    | 8 => "\\b"
    | 9 => "\\t"
    | 10 => "\\n"
    | 12 => "\\f"
    | 13 => "\\r"
    | n => "\\u00" ++ String.singleton (Nat.digitChar (n / 16))
                   ++ String.singleton (Nat.digitChar (n % 16))
  else String.singleton c

/-- `serde_json::to_string` on a string value. -/
def jsonStringEncode (s : String) : String :=
  "\"" ++ String.join (s.data.map escapeChar) ++ "\""

/-- The script the bootstrap's setup hook evaluates in the main webview:
for more than one startup argument it is
`window.__OPENED_FILE__ = <json of args[1]>;`, pushed once; otherwise
nothing is injected. -/
def openedFileScript (args : List String) : Option String :=
  if h : 1 < args.length then
    some ("window.__OPENED_FILE__ = " ++ jsonStringEncode (args.get ⟨1, h⟩) ++ ";")
  else none

/-! Concrete inputs used by witnesses and counterexamples. -/

/-- A filesystem with no existing files, every path writable. -/
def fsDemo : FS :=
  ⟨fun _ => none, fun _ => true, fun _ => "No such file or directory"⟩

/-- A header map carrying `X-File-Path: /a` (bytes 47, 97). -/
def hdrDemo : String → Option HeaderValue :=
  fun name => if name = "X-File-Path" then some ⟨[47, 97]⟩ else none

/-- Raw-body request writing bytes `[0, 255]` to `/a`. -/
def reqRawDemo : Request := ⟨hdrDemo, .Raw [0, 255]⟩

/-- Structured-fallback request writing bytes `[0, 255]` to `/a`. -/
def reqJsonDemo : Request := ⟨hdrDemo, .Json (encodeBytes [0, 255])⟩

/-- Request with no headers at all and an undecodable JSON body. -/
def reqBad : Request := ⟨fun _ => none, .Json (.str "x")⟩

/-- Request whose `X-File-Path` header is present but not valid text
(byte 200 is not visible ASCII). -/
def reqBadHeader : Request :=
  ⟨fun name => if name = "X-File-Path" then some ⟨[200]⟩ else none, .Raw [1]⟩

/-- Request with a good header and an undecodable JSON body. -/
def reqJsonBad : Request := ⟨hdrDemo, .Json (.str "x")⟩

/-! Helper lemmas. -/

/-- Decoding the structured number-array encoding of a byte list recovers
the list, provided every entry is a byte. -/
theorem decodeU8List_encode (B : List Nat) (hB : ∀ b ∈ B, b < 256) :
    decodeU8List (B.map fun (b : Nat) => JsonValue.num (b : Int)) = .ok B := by
  induction B with
  | nil => rfl
  | cons b bs ih =>
    have hb : b < 256 := hB b (List.mem_cons_self b bs)
    have hrest : ∀ x ∈ bs, x < 256 := fun x hx => hB x (List.mem_cons_of_mem _ hx)
    simp only [List.map_cons, decodeU8List, decodeU8]
    rw [if_pos (by constructor <;> omega)]
    rw [ih hrest]
    simp

/-- `serde_json::from_value::<Vec<u8>>` inverts the structured encoding. -/
theorem decodeVecU8_encode (B : List Nat) (hB : ∀ b ∈ B, b < 256) :
    decodeVecU8 (encodeBytes B) = .ok B :=
  decodeU8List_encode B hB

/-- When the header resolves to `P` and the body resolves to `B`, the raw
entry point computes exactly what `write_file_bytes fs P B` computes. -/
theorem writeRaw_eq_write (fs : FS) (req : Request) (P : String) (B : List Nat)
    (hp : headerPath req = some P)
    (hb : req.body = .Raw B ∨ ∃ v, req.body = .Json v ∧ decodeVecU8 v = .ok B) :
    write_file_bytes_raw fs req = write_file_bytes fs P B := by
  rcases hb with h | ⟨v, hv, hdec⟩
  · simp only [write_file_bytes_raw, write_file_bytes, hp, h]
  · simp only [write_file_bytes_raw, write_file_bytes, hp, hv, hdec]

/-- Reading back a successfully written file yields the written payload. -/
theorem write_then_read (fs : FS) (P : String) (B : List Nat)
    (hw : fs.writable P = true) :
    read_file_bytes (write_file_bytes fs P B).1 P = .ok B := by
  simp [write_file_bytes, hw, read_file_bytes, FS.setFile]

/-! Claim theorems. -/

/-- Claim C1: for every byte sequence `B` and writable path `P`, writing
`B` to `P` via `write_file_bytes` (structured encoding) or via
`write_file_bytes_raw` (raw body, or the structured fallback carrying the
encoding of `B`) and then calling `read_file_bytes P` returns exactly `B`. -/
theorem claim1_round_trip (fs : FS) (P : String) (B : List Nat)
    (req1 req2 : Request)
    (hw : fs.writable P = true) (hB : ∀ b ∈ B, b < 256)
    (h1p : headerPath req1 = some P) (h1b : req1.body = .Raw B)
    (h2p : headerPath req2 = some P) (h2b : req2.body = .Json (encodeBytes B)) :
    read_file_bytes (write_file_bytes fs P B).1 P = .ok B ∧
    read_file_bytes (write_file_bytes_raw fs req1).1 P = .ok B ∧
    read_file_bytes (write_file_bytes_raw fs req2).1 P = .ok B := by
  refine ⟨write_then_read fs P B hw, ?_, ?_⟩
  · rw [writeRaw_eq_write fs req1 P B h1p (Or.inl h1b)]
    exact write_then_read fs P B hw
  · rw [writeRaw_eq_write fs req2 P B h2p
      (Or.inr ⟨encodeBytes B, h2b, decodeVecU8_encode B hB⟩)]
    exact write_then_read fs P B hw

theorem claim1_round_trip_witness :
    read_file_bytes (write_file_bytes fsDemo "/a" [0, 255]).1 "/a" = .ok [0, 255] ∧
    read_file_bytes (write_file_bytes_raw fsDemo reqRawDemo).1 "/a" = .ok [0, 255] ∧
    read_file_bytes (write_file_bytes_raw fsDemo reqJsonDemo).1 "/a" = .ok [0, 255] :=
  claim1_round_trip fsDemo "/a" [0, 255] reqRawDemo reqJsonDemo rfl (by decide)
    rfl rfl rfl rfl

/-- Claim C2: a successful `write_file_bytes_raw` whose `X-File-Path`
header carries `P` and whose body carries `B` (raw, or as the decodable
structured fallback) performs the identical filesystem write as
`write_file_bytes P B`: the two entry points compute the same result. -/
theorem claim2_raw_refines_structured (fs : FS) (req : Request) (P : String)
    (B : List Nat) (hp : headerPath req = some P)
    (hb : req.body = .Raw B ∨ ∃ v, req.body = .Json v ∧ decodeVecU8 v = .ok B) :
    write_file_bytes_raw fs req = write_file_bytes fs P B :=
  writeRaw_eq_write fs req P B hp hb

theorem claim2_raw_refines_structured_witness :
    write_file_bytes_raw fsDemo reqRawDemo = write_file_bytes fsDemo "/a" [0, 255] :=
  claim2_raw_refines_structured fsDemo reqRawDemo "/a" [0, 255] rfl (Or.inl rfl)

/-- Claim C3: when the `X-File-Path` header is absent, or present but not
valid text, `write_file_bytes_raw` fails with the "missing path" error and
leaves the filesystem unchanged. -/
theorem claim3_missing_header (fs : FS) (req : Request)
    (h : req.headers "X-File-Path" = none ∨
      ∃ hv, req.headers "X-File-Path" = some hv ∧ hv.to_str = none) :
    write_file_bytes_raw fs req = (fs, .error "Missing X-File-Path header") := by
  have hp : headerPath req = none := by
    unfold headerPath
    rcases h with h | ⟨hv, h1, h2⟩
    · rw [h]; rfl
    · rw [h1, Option.some_bind, h2]
  unfold write_file_bytes_raw
  rw [hp]

theorem claim3_missing_header_witness :
    write_file_bytes_raw fsDemo reqBadHeader =
      (fsDemo, .error "Missing X-File-Path header") :=
  claim3_missing_header fsDemo reqBadHeader (Or.inr ⟨⟨[200]⟩, rfl, rfl⟩)

set_option maxRecDepth 8000 in
/-- Claim C4, counterexample to the claim as stated: `reqBad` carries a
structured-fallback body that is not a valid byte-array encoding, yet
`write_file_bytes_raw` fails with the missing-header error (its header is
also absent, and path extraction runs first), not with a decode error. -/
theorem claim4_counterexample :
    (∃ e, decodeVecU8 (JsonValue.str "x") = .error e) ∧
    write_file_bytes_raw fsDemo reqBad =
      (fsDemo, .error "Missing X-File-Path header") ∧
    isDecodeErr (write_file_bytes_raw fsDemo reqBad).2 = false :=
  ⟨⟨"invalid type: expected a sequence", rfl⟩, rfl, rfl⟩

/-- Claim C4 (amended): for every request whose path header resolves and
whose structured-fallback body is not a valid byte-array encoding,
`write_file_bytes_raw` fails with a decode error and leaves the
filesystem unchanged. -/
theorem claim4_decode_error (fs : FS) (req : Request) (P : String)
    (v : JsonValue) (e : String)
    (hp : headerPath req = some P) (hb : req.body = .Json v)
    (hdec : decodeVecU8 v = .error e) :
    write_file_bytes_raw fs req =
      (fs, .error ("Failed to deserialize data: " ++ e)) := by
  simp only [write_file_bytes_raw, hp, hb, hdec]

theorem claim4_decode_error_witness :
    write_file_bytes_raw fsDemo reqJsonBad =
      (fsDemo, .error ("Failed to deserialize data: " ++
        "invalid type: expected a sequence")) :=
  claim4_decode_error fsDemo reqJsonBad "/a" (.str "x")
    "invalid type: expected a sequence" rfl rfl rfl

set_option maxRecDepth 8000 in
/-- Claim C5, counterexample to the claim as stated: the open dialog is
built with the primary "PDF Files" filter and the "All Files" catch-all,
but the save dialog is built with only the "PDF Files" filter — the filter
sets differ and the catch-all is missing from the save dialog. -/
theorem claim5_counterexample :
    openDialogConfig.filters = [("PDF Files", ["pdf"]), ("All Files", ["*"])] ∧
    (saveDialogConfig none).filters = [("PDF Files", ["pdf"])] ∧
    (saveDialogConfig none).filters ≠ openDialogConfig.filters ∧
    ("All Files", ["*"]) ∉ (saveDialogConfig none).filters :=
  ⟨rfl, rfl, by decide, by decide⟩

/-- Claim C5 (amended): `save_file_dialog` presents its dialog restricted
by only the primary document-type filter ("PDF Files"), without the
"all files" catch-all that `open_file_dialog` adds; its cancellation
semantics are the same as the open dialog's (the user's choice is returned
as a success, absence included). -/
theorem claim5_save_dialog_filters (user : FileDialogBuilder → Option String)
    (d : Option String) :
    (saveDialogConfig d).filters = [("PDF Files", ["pdf"])] ∧
    save_file_dialog user d = .ok (user (saveDialogConfig d)) ∧
    open_file_dialog user = .ok (user openDialogConfig) := by
  refine ⟨?_, ?_, ?_⟩
  · cases d <;> rfl
  · unfold save_file_dialog
    cases user (saveDialogConfig d) <;> rfl
  · unfold open_file_dialog
    cases user openDialogConfig <;> rfl

/-- Claim C6: user cancellation (the dialog returns no selection) yields a
success carrying no path, never an error, for both dialogs. -/
theorem claim6_cancellation (u1 u2 : FileDialogBuilder → Option String)
    (d : Option String)
    (h1 : u1 openDialogConfig = none) (h2 : u2 (saveDialogConfig d) = none) :
    open_file_dialog u1 = .ok none ∧ save_file_dialog u2 d = .ok none := by
  unfold open_file_dialog save_file_dialog
  rw [h1, h2]
  exact ⟨rfl, rfl⟩

theorem claim6_cancellation_witness :
    open_file_dialog (fun _ => none) = .ok none ∧
    save_file_dialog (fun _ => none) none = .ok none :=
  claim6_cancellation (fun _ => none) (fun _ => none) none rfl rfl

/-- Claim C7: `get_file_opened_with` returns the second element of the
argument list when it exists and an explicit absence otherwise — that is,
it equals indexing the argument list at position 1; being a pure function
of the (fixed) argument list, it returns the same value on every call. -/
theorem claim7_get_file_opened_with (args : List String) :
    get_file_opened_with args = args.get? 1 := by
  unfold get_file_opened_with
  split
  · next h => rw [List.get?_eq_get h]
  · next h => rw [List.get?_eq_none.mpr (by omega)]

set_option maxRecDepth 8000 in
/-- Claim C8: for the startup argument list `["/app/bin",
"/docs/report.pdf"]`, `get_file_opened_with` returns `"/docs/report.pdf"`
and the bootstrap injects the front-end global assignment with the JSON
string `"/docs/report.pdf"`. -/
theorem claim8_startup_injection :
    get_file_opened_with ["/app/bin", "/docs/report.pdf"] =
      some "/docs/report.pdf" ∧
    openedFileScript ["/app/bin", "/docs/report.pdf"] =
      some "window.__OPENED_FILE__ = \"/docs/report.pdf\";" :=
  ⟨rfl, rfl⟩

/-- Claim C9: reading a path with no readable regular file fails with a
descriptive I/O error and returns no data, partial or otherwise. -/
theorem claim9_read_missing (fs : FS) (P : String) (h : fs.files P = none) :
    read_file_bytes fs P = .error ("Failed to read file: " ++ fs.osError P) ∧
    ∀ data, read_file_bytes fs P ≠ .ok data := by
  unfold read_file_bytes
  rw [h]
  exact ⟨rfl, fun data hc => Except.noConfusion hc⟩

theorem claim9_read_missing_witness :
    read_file_bytes fsDemo "/missing" =
      .error ("Failed to read file: " ++ fsDemo.osError "/missing") ∧
    ∀ data, read_file_bytes fsDemo "/missing" ≠ .ok data :=
  claim9_read_missing fsDemo "/missing" rfl

/-- Claim C10: neither dialog command ever returns its error variant — for
every outcome of the underlying dialog call, the result is a success
carrying the selected path or absence. -/
theorem claim10_dialogs_never_error (user : FileDialogBuilder → Option String)
    (d : Option String) :
    open_file_dialog user = .ok (user openDialogConfig) ∧
    save_file_dialog user d = .ok (user (saveDialogConfig d)) := by
  unfold open_file_dialog save_file_dialog
  constructor
  · cases user openDialogConfig <;> rfl
  · cases user (saveDialogConfig d) <;> rfl

end OfficeTools
